import Mathlib

/-!
Verification development for the `emgrad` repository (a minimal
automatic-differentiation engine).  The definitions below are a shallow
embedding, in Lean, of the Python source files:

  * `src/emgrad/operators.py`            — the `Op` base class and its cache
  * `src/emgrad/_backends.py`            — device parsing, selection, moving
  * `src/emgrad/nn/init/_dist.py`        — fan computation and initializers
  * `src/emgrad/autograd/random/_base.py`— random tensor factories

Python machine-level conventions used by the embedding:

  * fallible code (`assert`, `raise`) is an `Except` value;
  * Python `int` is `Nat` where the source only ever sees shapes/indices,
    `ℚ` stands for the numeric values flowing through the float formulas
    (the claims under verification compare formulas symbolically, never
    rounded float values);
  * true division `a / b` between numbers, which raises
    `ZeroDivisionError` in Python when `b == 0`, is the fallible `pydiv`;
  * external backend functions (`numpy.random.*`, `cupy.asnumpy`, ...)
    are modelled by their documented calling conventions, which is all the
    repository's code depends on.
-/

namespace Emgrad

/-! ## `operators.py` — the `Op` cache -/

/-- Python `AssertionError`, raised by a failing `assert` statement. -/
inductive PyAssertionError where
  | assertionFailed
  deriving DecidableEq, Repr

/-- The mutable state of an `Op` instance (`operators.py`, class `Op`).
`_cache` holds `None` or the tuple of values passed to `save_to_cache`;
a Python tuple of cached values is a `List α`.  The `kwargs` field and
the bound backend of the Python class do not interact with the cache and
are carried as opaque data. -/
structure Op (α : Type) where
  kwargs : List (String × α)
  cache : Option (List α)
  deriving DecidableEq, Repr

/-- Model of `Op.__init__`: the cache starts out empty (`self._cache = None`). -/
def Op.init (α : Type) (kwargs : List (String × α)) : Op α :=
  { kwargs := kwargs, cache := none }

/-- Model of `Op.save_to_cache(*args)`: stores the argument tuple in `_cache`. -/
def Op.save_to_cache (op : Op α) (args : List α) : Op α :=
  { op with cache := some args }

/-- Model of `Op.retrieve_from_cache()`: asserts the cache is non-`None`, then
returns the stored tuple and resets `_cache` to `None`. -/
def Op.retrieve_from_cache (op : Op α) :
    Except PyAssertionError (List α × Op α) :=
  match op.cache with
  | none => .error .assertionFailed
  | some values => .ok (values, { op with cache := none })

/-! ## `_backends.py` — device parsing -/

/-- The failures of `_get_type_and_id` / `Device.__init__`:
`invalidDevice` is the `ValueError("Unknown device: ...")` (the spec's
`InvalidDeviceError`), `deviceUnavailable` the
`assert cuda_available()` failure (the spec's `DeviceUnavailableError`). -/
inductive DevErr where
  | invalidDevice
  | deviceUnavailable
  deriving DecidableEq, Repr

/-- Decimal value of a digit run, as `int(...)` computes it. -/
def decDigits (ds : List Char) : Nat :=
  ds.foldl (fun acc c => acc * 10 + (c.toNat - '0'.toNat)) 0

/-- The optional regex group `(?::(?P<id>\d+))?` applied at the position
just after the device type: if the remaining input starts with `:` that
is immediately followed by at least one digit, the group captures the
maximal digit run (greedy `\d+`); otherwise it matches empty and the id
is `None`.  Any characters after the match are ignored, because
`re.match` anchors only at the start of the string. -/
def idSuffix (rest : List Char) : Option Nat :=
  match rest with
  | ':' :: r2 =>
      let ds := r2.takeWhile Char.isDigit
      if ds.isEmpty then none else some (decDigits ds)
  | _ => none

/-- Model of `_get_type_and_id(device_type)` (`_backends.py` lines 58–66).
`re.match(r"(?P<type>cpu|cuda)(?::(?P<id>\d+))?", device_type)` matches a
prefix of the input: the alternation `cpu|cuda` (the two branches are
mutually exclusive on any input), then the optional `:<digits>` group.
When the matched type is `cuda`, `assert cuda_available()` runs before
the id is extracted; when the regex does not match,
`ValueError` is raised.  `cudaAvail` is the ambient `cuda_available()`. -/
def get_type_and_id (cudaAvail : Bool) (s : String) :
    Except DevErr (String × Option Nat) :=
  if s.data.take 3 = ['c', 'p', 'u'] then
    .ok ("cpu", idSuffix (s.data.drop 3))
  else if s.data.take 4 = ['c', 'u', 'd', 'a'] then
    if cudaAvail then .ok ("cuda", idSuffix (s.data.drop 4))
    else .error .deviceUnavailable
  else .error .invalidDevice

/-- The `Device` value: `dev_type` and `dev_id` as set by `__init__`.
The `xp` attribute is a function of `dev_type` and is not part of the
value's identity (`__eq__` compares only `dev_type` and `dev_id`). -/
structure Device where
  dev_type : String
  dev_id : Option Nat
  deriving DecidableEq, Repr

/-- Model of `Device.__init__(dev_type)`: parse the descriptor with
`_get_type_and_id` and store the two components. -/
def Device.ofString (cudaAvail : Bool) (s : String) : Except DevErr Device :=
  (get_type_and_id cudaAvail s).map fun ti => ⟨ti.1, ti.2⟩

/-- A Python value offered to `Device.__eq__`: either another `Device`
or some non-`Device` object (carried as an opaque tag). -/
inductive PyOperand where
  | device (d : Device)
  | nonDevice (tag : Nat)
  deriving DecidableEq, Repr

/-- Model of `Device.__eq__(other)` (`_backends.py` lines 76–81): the
`isinstance(other, Device)` check, then field-by-field comparison. -/
def Device.eq (self : Device) (other : PyOperand) : Bool :=
  match other with
  | .device o => o.dev_type == self.dev_type && o.dev_id == self.dev_id
  | .nonDevice _ => false

/-! ## `_backends.py` — device selection -/

/-- The argument of `select_device`, of Python type
`Optional[DeviceLike] = Device | str | None`. -/
inductive DeviceLikeOpt where
  | dev (d : Device)
  | str (s : String)
  | pyNone
  deriving DecidableEq, Repr

/-- Model of `select_device(device)` (`_backends.py` lines 118–121): returns the
`Device` unchanged; otherwise constructs `Device(device or "cpu")` — the
Python `or` replaces both `None` and the falsy empty string by `"cpu"`. -/
def select_device (cudaAvail : Bool) (device : DeviceLikeOpt) :
    Except DevErr Device :=
  match device with
  | .dev d => .ok d
  | .str s => Device.ofString cudaAvail (if s = "" then "cpu" else s)
  | .pyNone => Device.ofString cudaAvail "cpu"

/-- The argument of `parse_device`, of Python type `DeviceLike = Device | str`. -/
inductive DeviceLikeArg where
  | dev (d : Device)
  | str (s : String)
  deriving DecidableEq, Repr

/-- Model of `parse_device(device)` (`_backends.py` lines 124–125): the `Device`
unchanged if already one, else `Device(device)`. -/
def parse_device (cudaAvail : Bool) (device : DeviceLikeArg) :
    Except DevErr Device :=
  match device with
  | .dev d => .ok d
  | .str s => Device.ofString cudaAvail s

/-! ## `_backends.py` — moving arrays between devices -/

/-- Where an array-like value is resident: host memory (a `numpy`
array) or the memory of a cuda device (a `cupy` array). -/
inductive Residence where
  | host
  | cudaDev (ordinal : Nat)
  deriving DecidableEq, Repr

/-- An array-like value; only its residence matters to `move_to_device`,
the payload is opaque data identifying the buffer. -/
structure Arr where
  resid : Residence
  payload : Nat
  deriving DecidableEq, Repr

/-- The state of the optional cuda backend: whether `import cupy`
succeeded (`_CUDA_BACKEND is not None`) and whether
`cuda_available()` holds (which requires `cupyInstalled`). -/
structure Backends where
  cupyInstalled : Bool
  cudaAvail : Bool
  deriving DecidableEq, Repr

/-- The failures `move_to_device` can raise: the `AttributeError` from
evaluating `_CUDA_BACKEND.asnumpy` when `_CUDA_BACKEND is None`, and the
`assert cuda_available()` failure. -/
inductive MoveErr where
  | attributeError
  | assertionFailed
  deriving DecidableEq, Repr

/-- Model of `cupy.asnumpy(a)`: returns an array in host memory; when `a` is
already a `numpy` array it is returned unchanged. -/
def cupy_asnumpy (a : Arr) : Arr :=
  { a with resid := .host }

/-- Model of `cupy.asarray(a)`: returns a `cupy` array on the current cuda
device; a `cupy` array already on that device is returned unchanged.
`cur` is the ambient current-device ordinal. -/
def cupy_asarray (cur : Nat) (a : Arr) : Arr :=
  { a with resid := .cudaDev cur }

/-- Model of `move_to_device(data, device)` (`_backends.py` lines 128–132):
if `device == Device("cpu")` the code evaluates
`_CUDA_BACKEND.asnumpy(data)` — an `AttributeError` when cupy was never
imported, because `_CUDA_BACKEND` is then `None`; otherwise it asserts
`cuda_available()` and returns `cupy.asarray(data)`.  `cur` is the
ambient current cuda device (ordinal `0` unless a device context is
active). -/
def move_to_device (b : Backends) (cur : Nat) (data : Arr) (device : Device) :
    Except MoveErr Arr :=
  if device = ⟨"cpu", none⟩ then
    if b.cupyInstalled then .ok (cupy_asnumpy data)
    else .error .attributeError
  else
    if b.cudaAvail then .ok (cupy_asarray cur data)
    else .error .assertionFailed

/-! ## `_backends.py` — scoped execution (`Device.__enter__`/`__exit__`) -/

/-- The ambient state of the cuda runtime: the current device ordinal
and the stack of ordinals pushed by nested `cupy.cuda.Device` contexts. -/
structure AmbientState where
  current : Nat
  stack : List Nat
  deriving DecidableEq, Repr

/-- Model of `Device.__enter__` (`_backends.py` lines 91–94): for a cpu device it
returns `None` and touches nothing; otherwise it delegates to
`cupy.cuda.Device(self.dev_id).__enter__()`, which pushes the current
ordinal and makes `dev_id` current (a `dev_id` of `None` selects the
already-current device) and returns the cupy device object (a
non-`None` value, modelled `some ()`). -/
def Device.enterCtx (d : Device) (s : AmbientState) :
    Option Unit × AmbientState :=
  if d.dev_type = "cpu" then (none, s)
  else (some (), { current := d.dev_id.getD s.current,
                   stack := s.current :: s.stack })

/-- Model of `Device.__exit__` (`_backends.py` lines 96–99): for a cpu device it
returns `None` and touches nothing; otherwise it delegates to
`cupy.cuda.Device(self.dev_id).__exit__(*args)`, which pops the saved
ordinal back into the current device and returns `None`. -/
def Device.exitCtx (d : Device) (s : AmbientState) :
    Option Unit × AmbientState :=
  if d.dev_type = "cpu" then (none, s)
  else
    match s.stack with
    | p :: rest => (none, { current := p, stack := rest })
    | [] => (none, s)

/-! ## `autograd/random/_base.py` — random tensor factories

The factories hand the user's `*shape` tuple to the backend's random
functions.  The backend calling conventions (numpy/cupy) that the
factories rely on:

  * `xp.random.rand(*dims)` accepts only separate integer dimensions —
    a tuple among its positional arguments is a `TypeError`;
  * `xp.random.normal(loc, scale, size)`, `xp.random.uniform(low, high,
    size)` and `xp.random.randint(low, high, size, dtype)` accept a
    tuple (or a single integer) as `size`; `scale` is the standard
    deviation of the normal distribution.
-/

/-- A positional argument handed to a backend random function: a Python
`int` or a tuple of `int`s. -/
inductive PyArg where
  | int (n : Nat)
  | tup (t : List Nat)
  deriving DecidableEq, Repr

/-- The backend failure the factories can surface. -/
inductive PyErr where
  | typeError
  deriving DecidableEq, Repr

/-- Model of `xp.random.rand(*dims)`: each positional argument must be an
integer dimension; returns the shape of the produced array.  A tuple
argument (or a tuple inside the expanded `size`) raises
`TypeError: argument cannot be interpreted as an integer`. -/
def np_random_rand (args : List PyArg) : Except PyErr (List Nat) :=
  args.mapM fun a =>
    match a with
    | .int n => .ok n
    | .tup _ => .error .typeError

/-- The sampling request `xp.random.normal(loc, scale, size)` resolves
to: `scale` is the standard deviation. -/
structure NormalSample where
  loc : ℚ
  scale : ℚ
  shape : List Nat
  deriving DecidableEq, Repr

/-- Model of `xp.random.normal(loc, scale, size)`: `size` may be a tuple of
dimensions or a single integer. -/
def np_random_normal (loc scale : ℚ) (size : PyArg) :
    Except PyErr NormalSample :=
  match size with
  | .tup t => .ok ⟨loc, scale, t⟩
  | .int n => .ok ⟨loc, scale, [n]⟩

/-- The sampling request `xp.random.uniform(low, high, size)` resolves to. -/
structure UniformSample where
  low : ℚ
  high : ℚ
  shape : List Nat
  deriving DecidableEq, Repr

/-- Model of `xp.random.uniform(low, high, size)`: `size` may be a tuple. -/
def np_random_uniform (low high : ℚ) (size : PyArg) :
    Except PyErr UniformSample :=
  match size with
  | .tup t => .ok ⟨low, high, t⟩
  | .int n => .ok ⟨low, high, [n]⟩

/-- The sampling request `xp.random.randint(low, high, size)` resolves to. -/
structure RandintSample where
  low : Int
  high : Int
  shape : List Nat
  deriving DecidableEq, Repr

/-- Model of `xp.random.randint(low, high, size, dtype)`: `size` may be a tuple. -/
def np_random_randint (low high : Int) (size : PyArg) :
    Except PyErr RandintSample :=
  match size with
  | .tup t => .ok ⟨low, high, t⟩
  | .int n => .ok ⟨low, high, [n]⟩

/-- The `Tensor` wrapper as the factories build it: the data array
(characterized by its shape) and the `req_grad` flag. -/
structure Tensor where
  shape : List Nat
  req_grad : Bool
  deriving DecidableEq, Repr

/-- Model of `rand(*shape, ...)` (`random/_base.py` lines 25–31):
`data = device.xp.random.rand(shape)` — the whole shape tuple is passed
as ONE positional argument of `rand`, whose signature takes separate
integer dimensions.  Only then would `Tensor(data, req_grad)` run. -/
def emgrad_rand (shape : List Nat) (req_grad : Bool) :
    Except PyErr Tensor := do
  let dataShape ← np_random_rand [.tup shape]
  .ok ⟨dataShape, req_grad⟩

/-- Model of `randn(*shape, mean, std, ...)` (`random/_base.py` lines 54–65):
`data = device.xp.random.normal(mean, std, shape)` — the shape tuple is
the `size` argument.  Returns the built tensor and the sampling request
its data was drawn from. -/
def emgrad_randn (shape : List Nat) (mean std : ℚ) (req_grad : Bool) :
    Except PyErr (Tensor × NormalSample) := do
  let sample ← np_random_normal mean std (.tup shape)
  .ok (⟨sample.shape, req_grad⟩, sample)

/-- Model of `randn_like(x, mean, var, ...)` (`random/_base.py` lines 68–73):
`randn(*x.shape, mean=mean, std=var, ...)` — the `var` argument is
passed as `randn`'s `std`. -/
def emgrad_randn_like (xshape : List Nat) (mean var : ℚ) (req_grad : Bool) :
    Except PyErr (Tensor × NormalSample) :=
  emgrad_randn xshape mean var req_grad

/-- The variance of the distribution `xp.random.normal` samples from:
its `scale` argument is the standard deviation, so the variance is its
square. -/
def NormalSample.variance (s : NormalSample) : ℚ :=
  s.scale ^ 2

/-- Model of `uniform(*shape, low, high, ...)` (`random/_base.py` lines 76–87):
`data = device.xp.random.uniform(low, high, shape)`. -/
def emgrad_uniform (shape : List Nat) (low high : ℚ) (req_grad : Bool) :
    Except PyErr (Tensor × UniformSample) := do
  let sample ← np_random_uniform low high (.tup shape)
  .ok (⟨sample.shape, req_grad⟩, sample)

/-- Model of `randint(*shape, low, high, ...)` (`random/_base.py` lines 34–45):
`data = device.xp.random.randint(low, high, shape, dtype)`. -/
def emgrad_randint (shape : List Nat) (low high : Int) (req_grad : Bool) :
    Except PyErr (Tensor × RandintSample) := do
  let sample ← np_random_randint low high (.tup shape)
  .ok (⟨sample.shape, req_grad⟩, sample)

/-! ## `nn/init/_dist.py` — fan computation and initializers -/

/-- The failures of the initializer formulas: the
`ValueError("Tensor with dims ... is not supported. Must be at least
2D.")` of `_calculate_fan_in_and_fan_out`, and Python's
`ZeroDivisionError` from a true division by integer zero. -/
inductive InitErr where
  | valueError
  | zeroDivisionError
  deriving DecidableEq, Repr

/-- Python's true division `a / b`: `ZeroDivisionError` when `b == 0`,
else the exact quotient (the claims compare the float formulas
symbolically). -/
def pydiv (a b : ℚ) : Except InitErr ℚ :=
  if b = 0 then .error .zeroDivisionError else .ok (a / b)

/-- Model of `_calculate_fan_in_and_fan_out(*shape)` (`_dist.py` lines 20–35):
two dims give `(shape[0], shape[1])`; three to five dims give
`(shape[1] * prod(shape[2:]), shape[0] * prod(shape[2:]))`; every other
length raises the `ValueError`. -/
def calculate_fan_in_and_fan_out (shape : List Nat) :
    Except InitErr (Nat × Nat) :=
  if shape.length = 2 then
    .ok (shape.getD 0 0, shape.getD 1 0)
  else if shape.length = 3 ∨ shape.length = 4 ∨ shape.length = 5 then
    let kernel_prod := (shape.drop 2).foldl (· * ·) 1
    .ok (shape.getD 1 0 * kernel_prod, shape.getD 0 0 * kernel_prod)
  else
    .error .valueError

/-- Model of `FanMode = Literal["fan_in", "fan_out"]`; a value of this type always
passes the `mode not in {"fan_in", "fan_out"}` guard of the kaiming
initializers. -/
inductive FanMode where
  | fan_in
  | fan_out
  deriving DecidableEq, Repr

/-- Model of `fan = fan_in if mode == "fan_in" else fan_out`. -/
def FanMode.pick (mode : FanMode) (fan_in fan_out : Nat) : Nat :=
  match mode with
  | .fan_in => fan_in
  | .fan_out => fan_out

/-- Model of `xavier_uniform(*shape, gain, ...)` (`_dist.py` lines 50–53):
`bound = (6 / (fan_in + fan_out)) ** 0.5 * gain`, then a uniform draw on
`(-bound, bound)`.  `ℚ` has no square root, so the request records the
SQUARE of the bound, `(6 / (fan_in + fan_out)) * gain ** 2` — faithful
because the bound is the non-negative square root of this value. -/
def xavier_uniform (shape : List Nat) (gain : ℚ) :
    Except InitErr (List Nat × ℚ) := do
  let fans ← calculate_fan_in_and_fan_out shape
  let ratio ← pydiv 6 ((fans.1 : ℚ) + (fans.2 : ℚ))
  .ok (shape, ratio * gain ^ 2)

/-- Model of `xavier_normal(*shape, gain, ...)` (`_dist.py` lines 56–59):
`std = (2 / (fan_in + fan_out)) ** 0.5 * gain`; the request records the
square of the std, `(2 / (fan_in + fan_out)) * gain ** 2`. -/
def xavier_normal (shape : List Nat) (gain : ℚ) :
    Except InitErr (List Nat × ℚ) := do
  let fans ← calculate_fan_in_and_fan_out shape
  let ratio ← pydiv 2 ((fans.1 : ℚ) + (fans.2 : ℚ))
  .ok (shape, ratio * gain ^ 2)

/-- Model of `kaiming_uniform(*shape, mode, ...)` (`_dist.py` lines 62–68):
`bound = (6 / fan) ** 0.5`; the request records the square of the
bound, `6 / fan`. -/
def kaiming_uniform (shape : List Nat) (mode : FanMode) :
    Except InitErr (List Nat × ℚ) := do
  let fans ← calculate_fan_in_and_fan_out shape
  let boundSq ← pydiv 6 (mode.pick fans.1 fans.2 : ℚ)
  .ok (shape, boundSq)

/-- Model of `kaiming_normal(*shape, mode, ...)` (`_dist.py` lines 71–77):
`std = (2 / fan) ** 5` — the FIFTH POWER, exactly representable in `ℚ`,
so the request records the std itself: a normal draw with mean `0` and
standard deviation `(2 / fan) ** 5`. -/
def kaiming_normal (shape : List Nat) (mode : FanMode) :
    Except InitErr (List Nat × ℚ × ℚ) := do
  let fans ← calculate_fan_in_and_fan_out shape
  let ratio ← pydiv 2 (mode.pick fans.1 fans.2 : ℚ)
  .ok (shape, 0, ratio ^ 5)

/-! ## Theorems -/

/-- Helper: binding an `ok` value in the `Except` monad applies the
continuation. -/
lemma ok_bind {ε α β : Type} (x : α) (f : α → Except ε β) :
    (Except.ok x : Except ε α) >>= f = f x := rfl

/-- Helper: binding an `error` value in the `Except` monad propagates
the error. -/
lemma error_bind {ε α β : Type} (e : ε) (f : α → Except ε β) :
    (Except.error e : Except ε α) >>= f = .error e := rfl

/-- Helper: no string has both `cpu` and `cuda` as a prefix (the two
regex alternatives disagree on the second character). -/
lemma cpu_cuda_prefix_exclusive (s : String)
    (h1 : s.data.take 3 = ['c', 'p', 'u'])
    (h2 : s.data.take 4 = ['c', 'u', 'd', 'a']) : False := by
  have h3 : (s.data.take 4).take 3 = s.data.take 3 := by
    rw [List.take_take]
    norm_num
  rw [h1, h2] at h3
  simp at h3

/-- C1: the operator cache is single-use.  On a freshly constructed
`Op` — no unconsumed `save_to_cache` — `retrieve_from_cache` fails with
the assertion error; after a `save_to_cache`, the first
`retrieve_from_cache` returns exactly the saved values and leaves the
cache empty, and a retrieve on that emptied state (a second retrieve
without an intervening save) fails again. -/
theorem cache_single_use {α : Type} (kw : List (String × α))
    (op : Op α) (args : List α) :
    (Op.init α kw).retrieve_from_cache = .error .assertionFailed
  ∧ (op.save_to_cache args).retrieve_from_cache
      = .ok (args, { op with cache := none })
  ∧ ({ op with cache := none } : Op α).retrieve_from_cache
      = .error .assertionFailed :=
  ⟨rfl, rfl, rfl⟩

/-- C2 counterexample: the claim says device parsing fails with an
`InvalidDeviceError` on every string other than `cpu`, `cuda`,
`cuda:<index>` — but `re.match` never anchors the end of the input, so
the strings `"cpu0"` and `"cpu:3"` (neither of the claimed forms) parse
successfully. -/
theorem parse_device_accepts_trailing_junk :
    parse_device false (.str "cpu0") = .ok ⟨"cpu", none⟩
  ∧ parse_device false (.str "cpu:3") = .ok ⟨"cpu", some 3⟩ :=
  ⟨rfl, rfl⟩

/-- C2 amended: device parsing succeeds exactly on strings that BEGIN
with `cpu` or with `cuda` (an immediately following `:<digits>` is
consumed as the index — also after `cpu` — and all remaining characters
are ignored); it fails with the `DeviceUnavailableError` exactly when
the string begins with `cuda` and no accelerator is present, and with
the `InvalidDeviceError` exactly when the string begins with neither;
on the three exact claimed forms it returns the expected devices. -/
theorem parse_device_amended (avail : Bool) (s : String) :
    ((∃ d, parse_device avail (.str s) = .ok d) ↔
      (s.data.take 3 = ['c', 'p', 'u'] ∨
        (s.data.take 4 = ['c', 'u', 'd', 'a'] ∧ avail = true)))
  ∧ (parse_device avail (.str s) = .error .deviceUnavailable ↔
      (s.data.take 4 = ['c', 'u', 'd', 'a'] ∧ avail = false))
  ∧ (parse_device avail (.str s) = .error .invalidDevice ↔
      (s.data.take 3 ≠ ['c', 'p', 'u'] ∧ s.data.take 4 ≠ ['c', 'u', 'd', 'a']))
  ∧ parse_device avail (.str "cpu") = .ok ⟨"cpu", none⟩
  ∧ parse_device true (.str "cuda") = .ok ⟨"cuda", none⟩
  ∧ parse_device true (.str "cuda:7") = .ok ⟨"cuda", some 7⟩ := by
  refine ⟨?_, ?_, ?_, ?_, rfl, rfl⟩
  · unfold parse_device Device.ofString get_type_and_id
    by_cases h1 : s.data.take 3 = ['c', 'p', 'u'] <;>
      by_cases h2 : s.data.take 4 = ['c', 'u', 'd', 'a'] <;>
        cases avail <;>
          first
            | exact absurd (cpu_cuda_prefix_exclusive s h1 h2) not_false
            | simp [h1, h2, Except.map]
  · unfold parse_device Device.ofString get_type_and_id
    by_cases h1 : s.data.take 3 = ['c', 'p', 'u'] <;>
      by_cases h2 : s.data.take 4 = ['c', 'u', 'd', 'a'] <;>
        cases avail <;>
          first
            | exact absurd (cpu_cuda_prefix_exclusive s h1 h2) not_false
            | simp [h1, h2, Except.map]
  · unfold parse_device Device.ofString get_type_and_id
    by_cases h1 : s.data.take 3 = ['c', 'p', 'u'] <;>
      by_cases h2 : s.data.take 4 = ['c', 'u', 'd', 'a'] <;>
        cases avail <;>
          first
            | exact absurd (cpu_cuda_prefix_exclusive s h1 h2) not_false
            | simp [h1, h2, Except.map]
  · unfold parse_device Device.ofString get_type_and_id
    norm_num
    rfl

/-- C3: the claim says moving an array already resident on the target
device is a no-op — but when the optional cupy backend was never
imported (`_CUDA_BACKEND is None`), moving a host array to the host
`Device("cpu")` evaluates `None.asnumpy(data)` and dies with an
`AttributeError` instead of returning the array (first conjunct, the
code bug).  With cupy importable the host→host and cuda→cuda moves are
no-ops returning the array unchanged (second and third conjuncts), and
moving to an absent accelerator fails with the
`assert cuda_available()`, the spec's `DeviceUnavailableError` (last
two conjuncts). -/
theorem move_to_device_host_noop_crashes_without_cupy :
    move_to_device ⟨false, false⟩ 0 ⟨.host, 7⟩ ⟨"cpu", none⟩
      = .error .attributeError
  ∧ move_to_device ⟨true, false⟩ 0 ⟨.host, 7⟩ ⟨"cpu", none⟩
      = .ok ⟨.host, 7⟩
  ∧ move_to_device ⟨true, true⟩ 0 ⟨.cudaDev 0, 7⟩ ⟨"cuda", some 0⟩
      = .ok ⟨.cudaDev 0, 7⟩
  ∧ move_to_device ⟨true, false⟩ 0 ⟨.host, 7⟩ ⟨"cuda", none⟩
      = .error .assertionFailed
  ∧ move_to_device ⟨false, false⟩ 0 ⟨.host, 7⟩ ⟨"cuda", some 0⟩
      = .error .assertionFailed :=
  ⟨rfl, rfl, rfl, rfl, rfl⟩

/-- C4 counterexample: the claim says a string argument is parsed — but
`select_device("")` returns the cpu device (the Python `or` treats the
empty string as falsy), while parsing `""` fails with the
`InvalidDeviceError`. -/
theorem select_device_empty_string :
    select_device false (.str "") = .ok ⟨"cpu", none⟩
  ∧ Device.ofString false "" = .error .invalidDevice :=
  ⟨rfl, rfl⟩

/-- C4 amended: `select_device` returns a `Device` argument itself,
unchanged; a NON-EMPTY string argument is parsed exactly as the
`Device` constructor parses it; `None` — and, unlike the claim, also
the empty string — yields the default host device `cpu`. -/
theorem select_device_amended (avail : Bool) (d : Device) (s : String)
    (hs : s ≠ "") :
    select_device avail (.dev d) = .ok d
  ∧ select_device avail (.str s) = Device.ofString avail s
  ∧ select_device avail .pyNone = .ok ⟨"cpu", none⟩
  ∧ select_device avail (.str "") = .ok ⟨"cpu", none⟩ := by
  refine ⟨rfl, ?_, rfl, rfl⟩
  show Device.ofString avail (if s = "" then "cpu" else s)
    = Device.ofString avail s
  rw [if_neg hs]

/-- C4 witness: the amended statement instantiated at a concrete
device, availability flag and non-empty string. -/
theorem select_device_amended_witness :
    select_device true (.dev ⟨"cuda", some 1⟩) = .ok ⟨"cuda", some 1⟩
  ∧ select_device true (.str "cpu0") = Device.ofString true "cpu0"
  ∧ select_device true .pyNone = .ok ⟨"cpu", none⟩
  ∧ select_device true (.str "") = .ok ⟨"cpu", none⟩ :=
  select_device_amended true ⟨"cuda", some 1⟩ "cpu0" (by decide)

/-- C5: `Device.__eq__` is determined by the `(kind, index)` pair — two
devices compare equal exactly when both `dev_type` and `dev_id` agree —
and a `Device` never compares equal to a non-`Device` value. -/
theorem device_eq_by_kind_and_index (d o : Device) (t : Nat) :
    (Device.eq d (.device o) = true ↔
      d.dev_type = o.dev_type ∧ d.dev_id = o.dev_id)
  ∧ Device.eq d (.nonDevice t) = false := by
  constructor
  · show (o.dev_type == d.dev_type && o.dev_id == d.dev_id) = true ↔ _
    rw [Bool.and_eq_true, beq_iff_eq, beq_iff_eq]
    exact ⟨fun h => ⟨h.1.symm, h.2.symm⟩, fun h => ⟨h.1.symm, h.2.symm⟩⟩
  · rfl

/-- C6: scoped execution on the host device is a no-op — for the `cpu`
device, `__enter__` and `__exit__` both return `None` and leave every
ambient state exactly as it was. -/
theorem cpu_scoped_execution_noop (s : AmbientState) :
    Device.enterCtx ⟨"cpu", none⟩ s = (none, s)
  ∧ Device.exitCtx ⟨"cpu", none⟩ s = (none, s) :=
  ⟨rfl, rfl⟩

/-- C7: for every supported shape (one whose fan computation succeeds,
i.e. 2 to 5 dimensions) and either fan mode, `kaiming_normal` requests
its normal samples with mean `0` and standard deviation
`(2 / fan) ** 5` — the FIFTH POWER, not the conventional square root —
where `fan` is the computed `fan_in` or `fan_out` according to `mode`
(the nonzero-fan hypothesis excludes only the shapes on which the
division itself raises `ZeroDivisionError`). -/
theorem kaiming_normal_fifth_power (shape : List Nat) (mode : FanMode)
    (fi fo : Nat)
    (hcalc : calculate_fan_in_and_fan_out shape = .ok (fi, fo))
    (hfan : mode.pick fi fo ≠ 0) :
    kaiming_normal shape mode
      = .ok (shape, 0, ((2 : ℚ) / (mode.pick fi fo : ℚ)) ^ 5) := by
  have hcast : ((mode.pick fi fo : Nat) : ℚ) ≠ 0 := by
    exact_mod_cast hfan
  have hpy : pydiv 2 ((mode.pick fi fo : Nat) : ℚ)
      = .ok (2 / ((mode.pick fi fo : Nat) : ℚ)) := by
    unfold pydiv
    rw [if_neg hcast]
  unfold kaiming_normal
  rw [hcalc]
  simp only [ok_bind]
  rw [hpy]
  simp only [ok_bind]

/-- C7 witness: for the two-dimensional shape `[3, 4]` in `fan_in`
mode, the fan computation yields `(3, 4)`, the fan is the nonzero `3`,
and the sampling request carries standard deviation `(2 / 3) ** 5`. -/
theorem kaiming_normal_fifth_power_witness :
    calculate_fan_in_and_fan_out [3, 4] = .ok (3, 4)
  ∧ FanMode.fan_in.pick 3 4 ≠ 0
  ∧ kaiming_normal [3, 4] .fan_in
      = .ok ([3, 4], 0, ((2 : ℚ) / (FanMode.fan_in.pick 3 4 : ℚ)) ^ 5) :=
  ⟨rfl, by decide,
    kaiming_normal_fifth_power [3, 4] .fan_in 3 4 rfl (by decide)⟩

/-- C8: for every shape, `rand` raises the backend `TypeError` and
never constructs a `Tensor`, because it passes the whole shape tuple as
one positional dimension argument of `xp.random.rand`, which accepts
only separate integers — while `randn`, `uniform` and `randint`, which
pass the tuple as the backend's `size` argument, all succeed. -/
theorem rand_always_raises (shape : List Nat) (rg : Bool)
    (m sd lo hi : ℚ) (li hi2 : Int) :
    emgrad_rand shape rg = .error .typeError
  ∧ (∃ r, emgrad_randn shape m sd rg = .ok r)
  ∧ (∃ r, emgrad_uniform shape lo hi rg = .ok r)
  ∧ (∃ r, emgrad_randint shape li hi2 rg = .ok r) :=
  ⟨rfl, ⟨_, rfl⟩, ⟨_, rfl⟩, ⟨_, rfl⟩⟩

/-- C9: `randn_like` forwards its `var` parameter as the `std` argument
of `randn`, so the backend's normal sampling request carries `v` as its
`scale` — the standard deviation — and the distribution sampled from has
variance `v ** 2`, not `v`. -/
theorem randn_like_var_is_std (xshape : List Nat) (m v : ℚ) (rg : Bool) :
    emgrad_randn_like xshape m v rg = .ok (⟨xshape, rg⟩, ⟨m, v, xshape⟩)
  ∧ (NormalSample.mk m v xshape).scale = v
  ∧ (NormalSample.mk m v xshape).variance = v ^ 2 :=
  ⟨rfl, rfl, rfl⟩

/-- C10: for every shape with fewer than 2 or more than 5 dimensions —
including the shapes of 6 or more dimensions that the error message
"Must be at least 2D." does not mention — the fan computation raises
the `ValueError`, and so do all four of `xavier_uniform`,
`xavier_normal`, `kaiming_uniform` and `kaiming_normal`. -/
theorem init_requires_2_to_5_dims (shape : List Nat) (g : ℚ)
    (mode : FanMode) (h : shape.length < 2 ∨ 5 < shape.length) :
    calculate_fan_in_and_fan_out shape = .error .valueError
  ∧ xavier_uniform shape g = .error .valueError
  ∧ xavier_normal shape g = .error .valueError
  ∧ kaiming_uniform shape mode = .error .valueError
  ∧ kaiming_normal shape mode = .error .valueError := by
  have hcalc : calculate_fan_in_and_fan_out shape = .error .valueError := by
    unfold calculate_fan_in_and_fan_out
    rw [if_neg (by omega), if_neg (by omega)]
  refine ⟨hcalc, ?_, ?_, ?_, ?_⟩ <;>
    simp [xavier_uniform, xavier_normal, kaiming_uniform, kaiming_normal,
      hcalc, error_bind]

/-- C10 witness: a six-dimensional shape — more than 5 dimensions, so
outside what the error message admits to rejecting — makes the fan
computation and all four initializers raise the `ValueError`. -/
theorem init_requires_2_to_5_dims_witness :
    calculate_fan_in_and_fan_out [1, 1, 1, 1, 1, 1] = .error .valueError
  ∧ xavier_uniform [1, 1, 1, 1, 1, 1] 1 = .error .valueError
  ∧ xavier_normal [1, 1, 1, 1, 1, 1] 1 = .error .valueError
  ∧ kaiming_uniform [1, 1, 1, 1, 1, 1] .fan_in = .error .valueError
  ∧ kaiming_normal [1, 1, 1, 1, 1, 1] .fan_in = .error .valueError :=
  init_requires_2_to_5_dims [1, 1, 1, 1, 1, 1] 1 .fan_in (by decide)

end Emgrad
